import Mathlib

/-!
Shallow embedding of the A/B-testing framework in `src/serving/ab_testing.py`
(class `ABTestingFramework`), together with proofs about its experiment
lifecycle, routing, analysis and monitoring operations.

Modelling conventions:
* Redis is modelled by an explicit `Store` value threaded through every
  operation; `setex` keeps the time-to-live (in seconds) next to each value.
  Expiry itself is enforced by Redis, outside this model.
* Wall-clock time (`time.time()` / `datetime.now()`) is passed explicitly as
  a rational number of seconds (`now`).
* `random.random()` is passed explicitly as the drawn value `u`.
* Python floats are modelled as rationals; machine times and latencies in the
  claims are small exact decimals, so no rounding behaviour is involved.
* `scipy.stats.ttest_ind` / `scipy.stats.chi2_contingency` are external
  numeric collaborators; the source only forwards the `(statistic, p-value)`
  pair they return, so they are taken as parameters (a `SciPy` structure).
* Fallible operations return `Option` / `Except`; a caught Python exception
  that makes a method return an error dictionary is modelled as `none`.
-/

namespace ABTesting

/-- One stored prediction outcome (`record_prediction`): arm identified by
`model_id`, latency in milliseconds, success flag.  The opaque payload fields
(`prediction`, `request_hash`) are never read back by any framework method
and are not modelled. -/
structure PredictionRecord where
  test_id : String
  model_id : String
  response_time : ℚ
  success : Bool
  timestamp : ℚ
deriving DecidableEq

/-- Per-arm aggregate statistics (`_calculate_model_stats`). -/
structure ModelStats where
  total_predictions : ℕ
  success_rate : ℚ
  avg_response_time : ℚ
  p95_response_time : ℚ
  p99_response_time : ℚ
  error_rate : ℚ
deriving DecidableEq

/-- The `response_time` entry of `statistical_tests` (independent t-test). -/
structure TTestOutcome where
  t_statistic : ℚ
  p_value : ℚ
  significant : Bool
  baseline_mean : ℚ
  candidate_mean : ℚ
deriving DecidableEq

/-- The `success_rate` entry of `statistical_tests` (chi-square test). -/
structure ChiSquareOutcome where
  chi2_statistic : ℚ
  p_value : ℚ
  significant : Bool
  baseline_success_rate : ℚ
  candidate_success_rate : ℚ
deriving DecidableEq

/-- The `statistical_tests` dictionary: each entry is present or absent. -/
structure StatisticalTests where
  response_time : Option TTestOutcome
  success_rate : Option ChiSquareOutcome
deriving DecidableEq

/-- The dictionary built by `analyze_ab_test`.  `baseline_stats` /
`candidate_stats` hold `none` for the empty dictionary `{}` that
`_calculate_model_stats` returns when an arm has no records. -/
structure AnalysisResults where
  test_id : String
  test_name : String
  analysis_time : ℚ
  baseline_stats : Option ModelStats
  candidate_stats : Option ModelStats
  statistical_tests : StatisticalTests
  recommendations : List String
deriving DecidableEq

/-- The experiment record built by `create_ab_test` and mutated by the
lifecycle operations.  `status` is the literal string stored by the source
(`CREATED` / `RUNNING` / `STOPPED`).  The `baseline_metrics`,
`candidate_metrics` and `statistical_results` fields are initialised to empty
dictionaries at creation and never read or written afterwards, so they are
not modelled. -/
structure TestConfig where
  test_id : String
  test_name : String
  baseline_model : String
  candidate_model : String
  traffic_split : ℚ
  duration_hours : ℤ
  success_metrics : List String
  min_samples : ℤ
  significance_level : ℚ
  start_time : ℚ
  end_time : ℚ
  status : String
  actual_start_time : Option ℚ
  stop_time : Option ℚ
  stop_reason : Option String
  last_analysis : Option AnalysisResults
deriving DecidableEq

/-- The `test_summary` part of a final report (`_generate_test_report`).
The source stores `test_config.get('stop_time', now)` under the key
`duration`. -/
structure TestSummary where
  test_id : String
  test_name : String
  duration : ℚ
  status : String
deriving DecidableEq

/-- A final report as persisted under `test_report:{id}`. -/
structure Report where
  test_summary : TestSummary
  results : AnalysisResults
  generated_at : ℚ
deriving DecidableEq

/-- The Redis contents relevant to the framework, keyed as in §6 of the
design: `ab_test:{id}`, `prediction:{id}:{model}:{millis}`,
`test_report:{id}`.  Each entry carries the TTL (seconds) passed to `setex`.
The in-process `self.active_tests` cache is written by `create_ab_test` but
never read by any method, so it is not part of the state. -/
structure Store where
  tests : List (String × TestConfig × ℚ)
  predictions : List (PredictionRecord × ℚ)
  reports : List (String × Report × ℚ)
deriving DecidableEq

/-- Lookup of `ab_test:{id}` together with its TTL. -/
def getTestEntry (s : Store) (test_id : String) : Option (TestConfig × ℚ) :=
  (s.tests.find? (fun e => e.1 == test_id)).map (·.2)

/-- `_get_test_config`: fetch and deserialize `ab_test:{id}` or `None`. -/
def get_test_config (s : Store) (test_id : String) : Option TestConfig :=
  (getTestEntry s test_id).map (·.1)

/-- `redis.setex` on an `ab_test:{id}` key: overwrite value and TTL. -/
def setTestEntry (s : Store) (test_id : String) (cfg : TestConfig) (ttl : ℚ) : Store :=
  { s with tests := (test_id, cfg, ttl) :: s.tests.filter (fun e => !(e.1 == test_id)) }

/-- Lookup of `test_report:{id}` together with its TTL. -/
def getReportEntry (s : Store) (test_id : String) : Option (Report × ℚ) :=
  (s.reports.find? (fun e => e.1 == test_id)).map (·.2)

/-- `get_test_report`: fetch the final report, `None` when absent. -/
def get_test_report (s : Store) (test_id : String) : Option Report :=
  (getReportEntry s test_id).map (·.1)

/-- `redis.setex` on a `test_report:{id}` key. -/
def setReportEntry (s : Store) (test_id : String) (r : Report) (ttl : ℚ) : Store :=
  { s with reports := (test_id, r, ttl) :: s.reports.filter (fun e => !(e.1 == test_id)) }

def hourSeconds : ℚ := 3600

def daySeconds : ℚ := 86400

/-- `create_ab_test`.  `now` is the call time; the source derives the id from
`int(time.time())` (whole seconds) and performs no parameter validation.
`success_metrics = none` models the Python default `None`, replaced by the
standard metric list. -/
def create_ab_test (s : Store) (now : ℚ) (test_name baseline_model candidate_model : String)
    (traffic_split : ℚ) (duration_hours : ℤ) (success_metrics : Option (List String))
    (min_samples : ℤ) (significance_level : ℚ) : String × Store :=
  let metrics := success_metrics.getD ["accuracy", "response_time", "error_rate"]
  let cfg : TestConfig := {
    test_id := "ab_test_" ++ toString (Int.floor now)
    test_name := test_name
    baseline_model := baseline_model
    candidate_model := candidate_model
    traffic_split := traffic_split
    duration_hours := duration_hours
    success_metrics := metrics
    min_samples := min_samples
    significance_level := significance_level
    start_time := now
    end_time := now + (duration_hours : ℚ) * hourSeconds
    status := "CREATED"
    actual_start_time := none
    stop_time := none
    stop_reason := none
    last_analysis := none }
  (cfg.test_id, setTestEntry s cfg.test_id cfg (((duration_hours : ℚ) + 24) * hourSeconds))

/-- `_update_test_config`: re-`setex` the record with a fresh 7-day TTL.
The source wraps the write in its own try/except, so a `json.dumps` failure
is logged and swallowed, making the call a silent no-op.  The only
non-serializable payloads the program ever passes are the freshly computed
`np.bool_` `significant` fields of a just-run analysis; that failing call
site is modelled inside `analyze_with_config`.  Every other caller
(`start_ab_test`, `stop_ab_test`, the insufficient-data write-back) writes a
record whose fields are JSON-clean — read back from the store or plain
strings/numbers — so for those the write always persists, as modelled
here. -/
def update_test_config (s : Store) (test_id : String) (cfg : TestConfig) : Store :=
  setTestEntry s test_id cfg (7 * daySeconds)

/-- `_deploy_istio_traffic_split`: the source builds and logs the
VirtualService dictionary and then returns `True`; nothing in the `try`
block can fail, so the call always succeeds. -/
def deploy_istio_traffic_split (_cfg : TestConfig) : Bool := true

/-- `_restore_baseline_traffic`: the source logs and returns `True`. -/
def restore_baseline_traffic (_cfg : TestConfig) : Bool := true

/-- `start_ab_test`.  The source checks only that the record exists; it does
not inspect `status` before overwriting it with `RUNNING`. -/
def start_ab_test (s : Store) (now : ℚ) (test_id : String) : Bool × Store :=
  match get_test_config s test_id with
  | none => (false, s)
  | some cfg =>
      if deploy_istio_traffic_split cfg then
        (true, update_test_config s test_id
          { cfg with status := "RUNNING", actual_start_time := some now })
      else (false, s)

/-- `_generate_test_report`: writes `test_report:{id}` with a 30-day TTL, but
only when the (re-fetched) record exists and carries a `last_analysis`
field; otherwise nothing is written. -/
def generate_test_report (s : Store) (now : ℚ) (test_id : String) : Store :=
  match get_test_config s test_id with
  | none => s
  | some cfg =>
      match cfg.last_analysis with
      | none => s
      | some analysis =>
          setReportEntry s test_id
            { test_summary := {
                test_id := test_id
                test_name := cfg.test_name
                duration := cfg.stop_time.getD now
                status := cfg.status }
              results := analysis
              generated_at := now }
            (30 * daySeconds)

/-- `stop_ab_test`.  The source checks only existence, not `status`: it
restores baseline traffic, overwrites `status`, `stop_time`, `stop_reason`,
and regenerates the report, whatever the previous status was. -/
def stop_ab_test (s : Store) (now : ℚ) (test_id : String) (reason : String) : Bool × Store :=
  match get_test_config s test_id with
  | none => (false, s)
  | some cfg =>
      if restore_baseline_traffic cfg then
        let s2 := update_test_config s test_id
          { cfg with status := "STOPPED", stop_time := some now, stop_reason := some reason }
        (true, generate_test_report s2 now test_id)
      else (false, s)

/-- `route_request` with the drawn random value `u` made explicit.  When the
record is absent the source still evaluates `test_config['baseline_model']`
with `test_config = None`, which raises a `TypeError`; this is modelled as
`Except.error`. -/
def route_request (s : Store) (u : ℚ) (test_id : String) : Except String String :=
  match get_test_config s test_id with
  | none => Except.error "TypeError: NoneType object is not subscriptable"
  | some cfg =>
      if cfg.status == "RUNNING" then
        if u < cfg.traffic_split then Except.ok cfg.candidate_model
        else Except.ok cfg.baseline_model
      else Except.ok cfg.baseline_model

/-- `record_prediction`: append one outcome record with a 7-day TTL. -/
def record_prediction (s : Store) (now : ℚ) (test_id model_id : String)
    (response_time : ℚ) (success : Bool) : Store :=
  { s with predictions :=
      ({ test_id := test_id, model_id := model_id, response_time := response_time,
         success := success, timestamp := now }, 7 * daySeconds) :: s.predictions }

/-- `_get_prediction_data`: all records stored under
`prediction:{test_id}:{model_id}:*`. -/
def get_prediction_data (s : Store) (test_id model_id : String) : List PredictionRecord :=
  (s.predictions.filter (fun e => e.1.test_id == test_id && e.1.model_id == model_id)).map (·.1)

/-- `np.mean`: arithmetic mean. -/
def mean (l : List ℚ) : ℚ := l.sum / l.length

/-- `np.percentile` with the default linear interpolation between closest
ranks.  Only ever applied to non-empty data by `_calculate_model_stats`. -/
def percentile (l : List ℚ) (q : ℚ) : ℚ :=
  let sorted := List.insertionSort (· ≤ ·) l
  let n := sorted.length
  if n = 0 then 0
  else
    let pos := q / 100 * ((n : ℚ) - 1)
    let lowIdx := (Int.floor pos).toNat
    let frac := pos - ((Int.floor pos : ℤ) : ℚ)
    let lo := sorted.getD lowIdx 0
    let hi := sorted.getD (lowIdx + 1) lo
    lo + frac * (hi - lo)

/-- `_calculate_model_stats`: `none` models the empty dictionary returned
when there is no data. -/
def calculate_model_stats (prediction_data : List PredictionRecord) : Option ModelStats :=
  if prediction_data.isEmpty then none
  else
    let response_times := prediction_data.map (·.response_time)
    let success_count := (prediction_data.filter (·.success)).length
    some {
      total_predictions := prediction_data.length
      success_rate := (success_count : ℚ) / (prediction_data.length : ℚ)
      avg_response_time := mean response_times
      p95_response_time := percentile response_times 95
      p99_response_time := percentile response_times 99
      error_rate := 1 - (success_count : ℚ) / (prediction_data.length : ℚ) }

/-- The external `scipy.stats` collaborators.  `analyze_ab_test` only
forwards the `(statistic, p-value)` pair each test returns, so the numeric
outputs are parameters of the embedding.  `chi2_contingency` receives the
four cells of the 2×2 contingency table row by row; its documented
`ValueError` — raised exactly when the expected-frequency table has a zero
element, i.e. when a row or column marginal of the table is zero — depends
only on the table and is therefore modelled explicitly at the call site in
`analyze_with_config`, not inside this oracle.  (`ttest_ind` does not raise
on non-empty inputs; degenerate data yields nan statistics, which are only
forwarded.) -/
structure SciPy where
  ttest_ind : List ℚ → List ℚ → ℚ × ℚ
  chi2_contingency : ℕ → ℕ → ℕ → ℕ → ℚ × ℚ

/-- The f-string appended as the single recommendation when either arm is
below the minimum sample count. -/
def insufficient_data_message (min_samples : ℤ) : String :=
  "Insufficient data for statistical analysis. Need at least " ++
    toString min_samples ++ " samples per model."

/-- `_generate_recommendations`: only reads the `statistical_tests`
dictionary of the analysis (its `test_config` argument is unused). -/
def generate_recommendations (tests : StatisticalTests) : List String :=
  let response_rec : List String :=
    match tests.response_time with
    | some t =>
        if t.significant then
          if t.candidate_mean < t.baseline_mean then
            ["✅ Candidate model shows significantly better response times"]
          else
            ["❌ Candidate model shows significantly worse response times"]
        else []
    | none => []
  let success_rec : List String :=
    match tests.success_rate with
    | some c =>
        if c.significant then
          if c.candidate_success_rate > c.baseline_success_rate then
            ["✅ Candidate model shows significantly better success rate"]
          else
            ["❌ Candidate model shows significantly worse success rate"]
        else []
    | none => []
  let rt_sig := match tests.response_time with
    | some t => t.significant
    | none => false
  let sr_sig := match tests.success_rate with
    | some c => c.significant
    | none => false
  let candidate_better_response :=
    match tests.response_time with
    | some t => t.significant && decide (t.candidate_mean < t.baseline_mean)
    | none => false
  let candidate_better_success :=
    match tests.success_rate with
    | some c => c.significant && decide (c.candidate_success_rate > c.baseline_success_rate)
    | none => false
  let overall :=
    if candidate_better_response && candidate_better_success then
      "🚀 RECOMMENDATION: Deploy candidate model to production"
    else if !rt_sig && !sr_sig then
      "🤔 RECOMMENDATION: No significant difference detected, continue testing or deploy based on business criteria"
    else
      "⚠️ RECOMMENDATION: Mixed results, review metrics carefully before deployment"
  response_rec ++ success_rec ++ [overall]

/-- Body of `analyze_ab_test` once the record has been fetched.  The base
dictionary (with both arms' stats and empty `statistical_tests` /
`recommendations`) is built first; the sample-count branch then either runs
both significance tests or appends the shortfall message.  Exception paths
of the sufficient-samples branch, caught by the source's blanket `except`
(which returns an error dictionary and skips the write-back, modelled as
`(none, s)`):
* an empty arm (only possible for `min_samples ≤ 0`) makes the success-rate
  computation divide by `len(...) == 0` (`ZeroDivisionError`);
* `scipy.stats.chi2_contingency` raises `ValueError` when the
  expected-frequency table has a zero element, i.e. when a row or column
  marginal of the 2×2 table is zero — in particular whenever all records of
  both arms are successes, or all are failures.
When the chi-square test does succeed, the write-back at the end of the
branch is attempted but never persists: the freshly computed `significant`
fields are `np.bool_` values (an `np.float64` p-value compared against a
float), which `json.dumps` cannot serialize; the `TypeError` is caught
inside `_update_test_config`, which logs it and leaves the store unchanged,
while `analyze_ab_test` still returns the full analysis dictionary — hence
`(some results, s)`.  Only the insufficient-data branch, whose payload is
JSON-clean (plain floats, ints and strings), actually persists its
write-back. -/
def analyze_with_config (sp : SciPy) (s : Store) (now : ℚ) (test_id : String)
    (cfg : TestConfig) : Option AnalysisResults × Store :=
  let baseline_data := get_prediction_data s test_id cfg.baseline_model
  let candidate_data := get_prediction_data s test_id cfg.candidate_model
  let base : AnalysisResults := {
    test_id := test_id
    test_name := cfg.test_name
    analysis_time := now
    baseline_stats := calculate_model_stats baseline_data
    candidate_stats := calculate_model_stats candidate_data
    statistical_tests := { response_time := none, success_rate := none }
    recommendations := [] }
  if cfg.min_samples ≤ (baseline_data.length : ℤ) ∧
      cfg.min_samples ≤ (candidate_data.length : ℤ) then
    if baseline_data.isEmpty ∨ candidate_data.isEmpty then
      (none, s)
    else
      let baseline_times := baseline_data.map (·.response_time)
      let candidate_times := candidate_data.map (·.response_time)
      let tres := sp.ttest_ind baseline_times candidate_times
      let baseline_successes := (baseline_data.filter (·.success)).length
      let candidate_successes := (candidate_data.filter (·.success)).length
      if baseline_successes + (baseline_data.length - baseline_successes) = 0 ∨
          candidate_successes + (candidate_data.length - candidate_successes) = 0 ∨
          baseline_successes + candidate_successes = 0 ∨
          (baseline_data.length - baseline_successes) +
            (candidate_data.length - candidate_successes) = 0 then
        (none, s)
      else
        let cres := sp.chi2_contingency
          baseline_successes (baseline_data.length - baseline_successes)
          candidate_successes (candidate_data.length - candidate_successes)
        let tests : StatisticalTests := {
          response_time := some {
            t_statistic := tres.1
            p_value := tres.2
            significant := decide (tres.2 < cfg.significance_level)
            baseline_mean := mean baseline_times
            candidate_mean := mean candidate_times }
          success_rate := some {
            chi2_statistic := cres.1
            p_value := cres.2
            significant := decide (cres.2 < cfg.significance_level)
            baseline_success_rate := (baseline_successes : ℚ) / (baseline_data.length : ℚ)
            candidate_success_rate := (candidate_successes : ℚ) / (candidate_data.length : ℚ) } }
        let results := { base with
          statistical_tests := tests
          recommendations := generate_recommendations tests }
        (some results, s)
  else
    let results := { base with
      recommendations := [insufficient_data_message cfg.min_samples] }
    (some results, update_test_config s test_id { cfg with last_analysis := some results })

/-- `analyze_ab_test`: returns the analysis dictionary and the updated
store.  A missing record makes the source return `{}`, modelled as `none`
with the store untouched. -/
def analyze_ab_test (sp : SciPy) (s : Store) (now : ℚ) (test_id : String) :
    Option AnalysisResults × Store :=
  match get_test_config s test_id with
  | none => (none, s)
  | some cfg => analyze_with_config sp s now test_id cfg

/-- `candidate_stats.get('error_rate', 0)` on a possibly-empty stats
dictionary. -/
def dictErrorRate : Option ModelStats → ℚ
  | some st => st.error_rate
  | none => 0

/-- `candidate_stats.get('avg_response_time', 0)` on a possibly-empty stats
dictionary. -/
def dictAvgResponseTime : Option ModelStats → ℚ
  | some st => st.avg_response_time
  | none => 0

/-- `_should_rollback`: `none` models the analysis dictionaries without the
stats keys (the `{}` and error dictionaries), for which the source returns
`False`.  Both comparisons are strict. -/
def should_rollback (analysis : Option AnalysisResults) : Bool :=
  match analysis with
  | none => false
  | some a =>
      decide (dictErrorRate a.candidate_stats > dictErrorRate a.baseline_stats * 2) ||
      decide (dictAvgResponseTime a.candidate_stats > dictAvgResponseTime a.baseline_stats * 1.5)

/-- One entry of the monitoring summary's `active_tests` list.
`duration_remaining` models `str(end_time - datetime.now())`. -/
structure ActiveTestEntry where
  test_id : String
  test_name : String
  traffic_split : ℚ
  duration_remaining : ℚ
deriving DecidableEq

/-- The summary returned by `monitor_ab_tests`. -/
structure MonitoringSummary where
  timestamp : ℚ
  active_tests : List ActiveTestEntry
  alerts : List String
  actions_taken : List String
deriving DecidableEq

/-- One iteration of the `monitor_ab_tests` loop over a stored key: skip
non-`RUNNING` records, stop on expired duration, otherwise analyze and
apply `_should_rollback`, threading the store through the performed
actions. -/
def monitor_step (sp : SciPy) (now : ℚ) (acc : MonitoringSummary × Store) (key : String) :
    MonitoringSummary × Store :=
  let summary := acc.1
  let s := acc.2
  match get_test_config s key with
  | none => (summary, s)
  | some cfg =>
      if cfg.status == "RUNNING" then
        let test_id := cfg.test_id
        if cfg.end_time < now then
          let stopped := stop_ab_test s now test_id "Test duration exceeded"
          ({ summary with actions_taken := summary.actions_taken ++
              ["Stopped test " ++ test_id ++ " - duration exceeded"] }, stopped.2)
        else
          let analyzed := analyze_ab_test sp s now test_id
          if should_rollback analyzed.1 then
            let stopped := stop_ab_test analyzed.2 now test_id
              "Automatic rollback - performance degradation"
            ({ summary with
                actions_taken := summary.actions_taken ++
                  ["Rolled back test " ++ test_id ++ " - performance degradation"]
                alerts := summary.alerts ++
                  ["CRITICAL: Automatic rollback triggered for test " ++ test_id] }, stopped.2)
          else
            ({ summary with active_tests := summary.active_tests ++
                [{ test_id := test_id
                   test_name := cfg.test_name
                   traffic_split := cfg.traffic_split
                   duration_remaining := cfg.end_time - now }] }, analyzed.2)
      else (summary, s)

/-- `monitor_ab_tests`: the key set is snapshotted once (`redis.keys`), then
each key is processed in turn against the store as left by the previous
iterations. -/
def monitor_ab_tests (sp : SciPy) (s : Store) (now : ℚ) : MonitoringSummary × Store :=
  (s.tests.map (·.1)).foldl (monitor_step sp now)
    ({ timestamp := now, active_tests := [], alerts := [], actions_taken := [] }, s)

/-- A trivially-valued instantiation of the external statistics library,
used to exercise the framework on concrete inputs. -/
def constSciPy : SciPy where
  ttest_ind := fun _ _ => (0, 1)
  chi2_contingency := fun _ _ _ _ => (0, 1)

/-- A sample experiment record shaped exactly like the state
`create_ab_test` followed by `start_ab_test` leaves behind (creation at
t = 100 s, 24 h duration), with the given status, sample threshold and last
analysis. -/
def sampleCfg (status : String) (min_samples : ℤ) (last : Option AnalysisResults) : TestConfig where
  test_id := "ab_test_100"
  test_name := "exp"
  baseline_model := "model-a"
  candidate_model := "model-b"
  traffic_split := 1/10
  duration_hours := 24
  success_metrics := ["accuracy", "response_time", "error_rate"]
  min_samples := min_samples
  significance_level := 1/20
  start_time := 100
  end_time := 100 + 24 * hourSeconds
  status := status
  actual_start_time := some 100
  stop_time := none
  stop_reason := none
  last_analysis := last

/-- A sample outcome record for `sampleCfg`'s experiment. -/
def sampleRec (model_id : String) (response_time : ℚ) (success : Bool) : PredictionRecord where
  test_id := "ab_test_100"
  model_id := model_id
  response_time := response_time
  success := success
  timestamp := 150

/-- A store holding `sampleCfg`'s experiment and the given outcome
records. -/
def sampleStore (cfg : TestConfig) (preds : List PredictionRecord) : Store where
  tests := [("ab_test_100", cfg, 172800)]
  predictions := preds.map (fun r => (r, 7 * daySeconds))
  reports := []

/-- A minimal concrete analysis value, used to populate `last_analysis` on
concrete inputs. -/
def sampleAnalysis : AnalysisResults where
  test_id := "ab_test_100"
  test_name := "exp"
  analysis_time := 150
  baseline_stats := none
  candidate_stats := none
  statistical_tests := { response_time := none, success_rate := none }
  recommendations := ["Insufficient data for statistical analysis. Need at least 1000 samples per model."]

/-! ### Store and lifecycle lemmas -/

@[simp] theorem getTestEntry_setTestEntry_self (s : Store) (id : String) (cfg : TestConfig)
    (ttl : ℚ) : getTestEntry (setTestEntry s id cfg ttl) id = some (cfg, ttl) := by
  simp [getTestEntry, setTestEntry]

@[simp] theorem get_test_config_setTestEntry_self (s : Store) (id : String) (cfg : TestConfig)
    (ttl : ℚ) : get_test_config (setTestEntry s id cfg ttl) id = some cfg := by
  simp [get_test_config]

@[simp] theorem get_test_config_update_self (s : Store) (id : String) (cfg : TestConfig) :
    get_test_config (update_test_config s id cfg) id = some cfg := by
  simp [update_test_config]

@[simp] theorem getTestEntry_update_self (s : Store) (id : String) (cfg : TestConfig) :
    getTestEntry (update_test_config s id cfg) id = some (cfg, 7 * daySeconds) := by
  simp [update_test_config]

@[simp] theorem get_test_report_setReportEntry_self (s : Store) (id : String) (r : Report)
    (ttl : ℚ) : get_test_report (setReportEntry s id r ttl) id = some r := by
  simp [get_test_report, getReportEntry, setReportEntry]

theorem get_test_config_congr {s t : Store} (h : s.tests = t.tests) (id : String) :
    get_test_config s id = get_test_config t id := by
  unfold get_test_config getTestEntry
  rw [h]

theorem get_test_report_congr {s t : Store} (h : s.reports = t.reports) (id : String) :
    get_test_report s id = get_test_report t id := by
  unfold get_test_report getReportEntry
  rw [h]

theorem tests_generate_test_report (s : Store) (now : ℚ) (id : String) :
    (generate_test_report s now id).tests = s.tests := by
  unfold generate_test_report
  split
  · rfl
  · split
    · rfl
    · rfl

@[simp] theorem get_test_config_generate_test_report (s : Store) (now : ℚ) (id id2 : String) :
    get_test_config (generate_test_report s now id) id2 = get_test_config s id2 :=
  get_test_config_congr (tests_generate_test_report s now id) id2

theorem reports_update_test_config (s : Store) (id : String) (cfg : TestConfig) :
    (update_test_config s id cfg).reports = s.reports := rfl

theorem start_ab_test_found {s : Store} {id : String} {cfg : TestConfig} (now : ℚ)
    (h : get_test_config s id = some cfg) :
    start_ab_test s now id =
      (true, update_test_config s id
        { cfg with status := "RUNNING", actual_start_time := some now }) := by
  unfold start_ab_test
  rw [h]
  rfl

theorem stop_ab_test_found {s : Store} {id : String} {cfg : TestConfig} (now : ℚ)
    (reason : String) (h : get_test_config s id = some cfg) :
    stop_ab_test s now id reason =
      (true, generate_test_report
        (update_test_config s id
          { cfg with status := "STOPPED", stop_time := some now, stop_reason := some reason })
        now id) := by
  unfold stop_ab_test
  rw [h]
  rfl

theorem generate_test_report_found {s : Store} {id : String} {cfg : TestConfig} (now : ℚ)
    (h : get_test_config s id = some cfg) :
    generate_test_report s now id =
      match cfg.last_analysis with
      | none => s
      | some analysis =>
          setReportEntry s id
            ⟨⟨id, cfg.test_name, cfg.stop_time.getD now, cfg.status⟩, analysis, now⟩
            (30 * daySeconds) := by
  unfold generate_test_report
  rw [h]

theorem analyze_ab_test_found {s : Store} {id : String} {cfg : TestConfig} (sp : SciPy)
    (now : ℚ) (h : get_test_config s id = some cfg) :
    analyze_ab_test sp s now id = analyze_with_config sp s now id cfg := by
  unfold analyze_ab_test
  rw [h]

/-! ### Analysis branch lemmas -/

theorem analyze_with_config_insufficient (sp : SciPy) (s : Store) (now : ℚ) (id : String)
    (cfg : TestConfig)
    (h : ¬ (cfg.min_samples ≤ ((get_prediction_data s id cfg.baseline_model).length : ℤ) ∧
            cfg.min_samples ≤ ((get_prediction_data s id cfg.candidate_model).length : ℤ))) :
    ∃ r : AnalysisResults,
      analyze_with_config sp s now id cfg =
        (some r, update_test_config s id { cfg with last_analysis := some r }) ∧
      r.statistical_tests = { response_time := none, success_rate := none } ∧
      r.recommendations = [insufficient_data_message cfg.min_samples] ∧
      r.baseline_stats = calculate_model_stats (get_prediction_data s id cfg.baseline_model) ∧
      r.candidate_stats = calculate_model_stats (get_prediction_data s id cfg.candidate_model) := by
  unfold analyze_with_config
  rw [if_neg h]
  exact ⟨_, rfl, rfl, rfl, rfl, rfl⟩

theorem analyze_with_config_sufficient (sp : SciPy) (s : Store) (now : ℚ) (id : String)
    (cfg : TestConfig)
    (hm : cfg.min_samples ≤ ((get_prediction_data s id cfg.baseline_model).length : ℤ) ∧
          cfg.min_samples ≤ ((get_prediction_data s id cfg.candidate_model).length : ℤ))
    (hb : get_prediction_data s id cfg.baseline_model ≠ [])
    (hc : get_prediction_data s id cfg.candidate_model ≠ [])
    (hmarg : ((get_prediction_data s id cfg.baseline_model).filter (·.success)).length +
          ((get_prediction_data s id cfg.candidate_model).filter (·.success)).length ≠ 0 ∧
        ((get_prediction_data s id cfg.baseline_model).length -
          ((get_prediction_data s id cfg.baseline_model).filter (·.success)).length) +
        ((get_prediction_data s id cfg.candidate_model).length -
          ((get_prediction_data s id cfg.candidate_model).filter (·.success)).length) ≠ 0) :
    ∃ r : AnalysisResults,
      analyze_with_config sp s now id cfg = (some r, s) ∧
      r.baseline_stats = calculate_model_stats (get_prediction_data s id cfg.baseline_model) ∧
      r.candidate_stats = calculate_model_stats (get_prediction_data s id cfg.candidate_model) := by
  have hb1 : ((get_prediction_data s id cfg.baseline_model).filter (·.success)).length ≤
      (get_prediction_data s id cfg.baseline_model).length := List.length_filter_le _ _
  have hc1 : ((get_prediction_data s id cfg.candidate_model).filter (·.success)).length ≤
      (get_prediction_data s id cfg.candidate_model).length := List.length_filter_le _ _
  have hb0 : 0 < (get_prediction_data s id cfg.baseline_model).length :=
    List.length_pos.mpr hb
  have hc0 : 0 < (get_prediction_data s id cfg.candidate_model).length :=
    List.length_pos.mpr hc
  unfold analyze_with_config
  rw [if_pos hm, if_neg (by simpa [List.isEmpty_iff] using ⟨hb, hc⟩), if_neg (by omega)]
  exact ⟨_, rfl, rfl, rfl⟩

theorem analyze_with_config_chi2_error (sp : SciPy) (s : Store) (now : ℚ) (id : String)
    (cfg : TestConfig)
    (hm : cfg.min_samples ≤ ((get_prediction_data s id cfg.baseline_model).length : ℤ) ∧
          cfg.min_samples ≤ ((get_prediction_data s id cfg.candidate_model).length : ℤ))
    (hb : get_prediction_data s id cfg.baseline_model ≠ [])
    (hc : get_prediction_data s id cfg.candidate_model ≠ [])
    (hmarg : ((get_prediction_data s id cfg.baseline_model).filter (·.success)).length +
          ((get_prediction_data s id cfg.candidate_model).filter (·.success)).length = 0 ∨
        ((get_prediction_data s id cfg.baseline_model).length -
          ((get_prediction_data s id cfg.baseline_model).filter (·.success)).length) +
        ((get_prediction_data s id cfg.candidate_model).length -
          ((get_prediction_data s id cfg.candidate_model).filter (·.success)).length) = 0) :
    analyze_with_config sp s now id cfg = (none, s) := by
  unfold analyze_with_config
  rw [if_pos hm, if_neg (by simpa [List.isEmpty_iff] using ⟨hb, hc⟩),
    if_pos (by rcases hmarg with hmarg | hmarg
               · exact Or.inr (Or.inr (Or.inl hmarg))
               · exact Or.inr (Or.inr (Or.inr hmarg)))]

/-! ### C7 -/

/-- C7: for every existing experiment, if either arm has fewer than
`min_samples` outcome records, `analyze_ab_test` returns a result with no
significance tests (no t-test and no chi-square entry) and exactly one
recommendation string stating the sample shortfall. -/
theorem analyze_insufficient_data_gate (sp : SciPy) (s : Store) (now : ℚ) (id : String)
    (cfg : TestConfig) (h : get_test_config s id = some cfg)
    (hlow : ((get_prediction_data s id cfg.baseline_model).length : ℤ) < cfg.min_samples ∨
            ((get_prediction_data s id cfg.candidate_model).length : ℤ) < cfg.min_samples) :
    ∃ r : AnalysisResults,
      (analyze_ab_test sp s now id).1 = some r ∧
      r.statistical_tests = { response_time := none, success_rate := none } ∧
      r.recommendations = [insufficient_data_message cfg.min_samples] := by
  rw [analyze_ab_test_found sp now h]
  obtain ⟨r, heq, ht, hr, -, -⟩ :=
    analyze_with_config_insufficient sp s now id cfg (by omega)
  exact ⟨r, by rw [heq], ht, hr⟩

/-- Witness for C7 at a concrete input: one record per arm against a
1000-sample threshold. -/
theorem analyze_insufficient_data_gate_witness :
    ((analyze_ab_test constSciPy
        (sampleStore (sampleCfg "RUNNING" 1000 none)
          [sampleRec "model-a" 100 true, sampleRec "model-b" 120 true])
        200 "ab_test_100").1.map AnalysisResults.statistical_tests) =
      some { response_time := none, success_rate := none } ∧
    ((analyze_ab_test constSciPy
        (sampleStore (sampleCfg "RUNNING" 1000 none)
          [sampleRec "model-a" 100 true, sampleRec "model-b" 120 true])
        200 "ab_test_100").1.map AnalysisResults.recommendations) =
      some [insufficient_data_message 1000] := by
  obtain ⟨r, h1, h2, h3⟩ :=
    analyze_insufficient_data_gate constSciPy
      (sampleStore (sampleCfg "RUNNING" 1000 none)
        [sampleRec "model-a" 100 true, sampleRec "model-b" 120 true])
      200 "ab_test_100" (sampleCfg "RUNNING" 1000 none)
      (by simp [get_test_config, getTestEntry, sampleStore])
      (by simp [get_prediction_data, sampleStore, sampleRec, sampleCfg])
  rw [h1]
  constructor
  · rw [show Option.map AnalysisResults.statistical_tests (some r) = some r.statistical_tests
      from rfl, h2]
  · rw [show Option.map AnalysisResults.recommendations (some r) = some r.recommendations
      from rfl, h3, show (sampleCfg "RUNNING" 1000 none).min_samples = 1000 from rfl]

/-! ### C10 -/

/-- C10 counterexample: an `analyze_ab_test` call with both arms at the
sample threshold persists nothing.  With one all-success record per arm
(`min_samples = 1`) the chi-square call aborts the analysis (zero failure
marginal) and the store — exhibited with its original 48-hour TTL and no
`last_analysis` — is returned unchanged; with one success and one failure
the analysis completes (`isSome`) but the write-back still does not
persist, so the store is again unchanged and its TTL is not reset to 7
days. -/
theorem analyze_sufficient_never_persists_cex :
    (analyze_ab_test constSciPy
        (sampleStore (sampleCfg "RUNNING" 1 none)
          [sampleRec "model-a" 100 true, sampleRec "model-b" 120 true])
        200 "ab_test_100").2 =
      sampleStore (sampleCfg "RUNNING" 1 none)
        [sampleRec "model-a" 100 true, sampleRec "model-b" 120 true] ∧
    getTestEntry
      (sampleStore (sampleCfg "RUNNING" 1 none)
        [sampleRec "model-a" 100 true, sampleRec "model-b" 120 true])
      "ab_test_100" = some (sampleCfg "RUNNING" 1 none, 172800) ∧
    (analyze_ab_test constSciPy
        (sampleStore (sampleCfg "RUNNING" 1 none)
          [sampleRec "model-a" 100 true, sampleRec "model-b" 120 false])
        200 "ab_test_100").1.isSome = true ∧
    (analyze_ab_test constSciPy
        (sampleStore (sampleCfg "RUNNING" 1 none)
          [sampleRec "model-a" 100 true, sampleRec "model-b" 120 false])
        200 "ab_test_100").2 =
      sampleStore (sampleCfg "RUNNING" 1 none)
        [sampleRec "model-a" 100 true, sampleRec "model-b" 120 false] := by
  have hA : get_test_config
      (sampleStore (sampleCfg "RUNNING" 1 none)
        [sampleRec "model-a" 100 true, sampleRec "model-b" 120 true]) "ab_test_100" =
      some (sampleCfg "RUNNING" 1 none) := by
    simp [get_test_config, getTestEntry, sampleStore]
  have hB : get_test_config
      (sampleStore (sampleCfg "RUNNING" 1 none)
        [sampleRec "model-a" 100 true, sampleRec "model-b" 120 false]) "ab_test_100" =
      some (sampleCfg "RUNNING" 1 none) := by
    simp [get_test_config, getTestEntry, sampleStore]
  refine ⟨?_, by simp [getTestEntry, sampleStore], ?_, ?_⟩
  · rw [analyze_ab_test_found constSciPy 200 hA,
      analyze_with_config_chi2_error constSciPy _ 200 "ab_test_100"
        (sampleCfg "RUNNING" 1 none) (by decide) (by decide) (by decide)
        (Or.inr (by decide))]
  · obtain ⟨r, heq, -, -⟩ := analyze_with_config_sufficient constSciPy
      (sampleStore (sampleCfg "RUNNING" 1 none)
        [sampleRec "model-a" 100 true, sampleRec "model-b" 120 false])
      200 "ab_test_100" (sampleCfg "RUNNING" 1 none)
      (by decide) (by decide) (by decide) ⟨by decide, by decide⟩
    rw [analyze_ab_test_found constSciPy 200 hB, heq]
    rfl
  · obtain ⟨r, heq, -, -⟩ := analyze_with_config_sufficient constSciPy
      (sampleStore (sampleCfg "RUNNING" 1 none)
        [sampleRec "model-a" 100 true, sampleRec "model-b" 120 false])
      200 "ab_test_100" (sampleCfg "RUNNING" 1 none)
      (by decide) (by decide) (by decide) ⟨by decide, by decide⟩
    rw [analyze_ab_test_found constSciPy 200 hB, heq]

/-- C10 amended: `analyze_ab_test` on a stored experiment writes the record
back — `last_analysis` replaced, every other field unchanged, TTL reset to
7 days — exactly in the insufficient-data case (either arm below
`min_samples`).  When both arms meet the threshold the store is always left
untouched: either the chi-square call aborts the analysis (zero
success/failure marginal, scipy `ValueError`), or the analysis completes
and the write-back fails inside `_update_test_config` because the freshly
computed `significant` fields are not JSON-serializable. -/
theorem analyze_writes_back_iff_insufficient (sp : SciPy) (s : Store) (now : ℚ)
    (id : String) (cfg : TestConfig) (h : get_test_config s id = some cfg) :
    ((((get_prediction_data s id cfg.baseline_model).length : ℤ) < cfg.min_samples ∨
      ((get_prediction_data s id cfg.candidate_model).length : ℤ) < cfg.min_samples) →
      ∃ r : AnalysisResults,
        (analyze_ab_test sp s now id).1 = some r ∧
        getTestEntry (analyze_ab_test sp s now id).2 id =
          some ({ cfg with last_analysis := some r }, 7 * daySeconds)) ∧
    (¬ (((get_prediction_data s id cfg.baseline_model).length : ℤ) < cfg.min_samples ∨
        ((get_prediction_data s id cfg.candidate_model).length : ℤ) < cfg.min_samples) →
      (analyze_ab_test sp s now id).2 = s) := by
  rw [analyze_ab_test_found sp now h]
  constructor
  · intro hlow
    obtain ⟨r, heq, -, -, -, -⟩ :=
      analyze_with_config_insufficient sp s now id cfg (by omega)
    exact ⟨r, by rw [heq], by rw [heq]; simp⟩
  · intro hhigh
    unfold analyze_with_config
    rw [if_pos (by omega)]
    split
    · rfl
    · dsimp only
      split
      · rfl
      · rfl

/-- Witness for C10's amended theorem: the insufficient-data write-back on
one concrete store, and the unchanged store on a concrete
sufficient-samples store. -/
theorem analyze_writes_back_iff_insufficient_witness :
    getTestEntry (analyze_ab_test constSciPy
        (sampleStore (sampleCfg "RUNNING" 1000 none) [sampleRec "model-a" 100 true])
        200 "ab_test_100").2 "ab_test_100" =
      some ({ sampleCfg "RUNNING" 1000 none with
              last_analysis := (analyze_ab_test constSciPy
                (sampleStore (sampleCfg "RUNNING" 1000 none) [sampleRec "model-a" 100 true])
                200 "ab_test_100").1 }, 7 * daySeconds) ∧
    (analyze_ab_test constSciPy
        (sampleStore (sampleCfg "RUNNING" 1 none)
          [sampleRec "model-a" 100 true, sampleRec "model-b" 120 false])
        200 "ab_test_100").2 =
      sampleStore (sampleCfg "RUNNING" 1 none)
        [sampleRec "model-a" 100 true, sampleRec "model-b" 120 false] := by
  constructor
  · obtain ⟨r, h1, h2⟩ := (analyze_writes_back_iff_insufficient constSciPy
      (sampleStore (sampleCfg "RUNNING" 1000 none) [sampleRec "model-a" 100 true])
      200 "ab_test_100" (sampleCfg "RUNNING" 1000 none)
      (by simp [get_test_config, getTestEntry, sampleStore])).1 (by decide)
    rw [h2, h1]
  · exact (analyze_writes_back_iff_insufficient constSciPy
      (sampleStore (sampleCfg "RUNNING" 1 none)
        [sampleRec "model-a" 100 true, sampleRec "model-b" 120 false])
      200 "ab_test_100" (sampleCfg "RUNNING" 1 none)
      (by simp [get_test_config, getTestEntry, sampleStore])).2 (by decide)

/-! ### C3 -/

/-- C3: `route_request` on an id absent from the store does not fail open to
the baseline model: the source subscripts the `None` returned by
`_get_test_config` and raises a `TypeError`.  On an existing record whose
status is not `RUNNING` (`STOPPED`, `CREATED`) it does return the baseline
model id. -/
theorem route_request_missing_id_raises :
    route_request { tests := [], predictions := [], reports := [] } (1/2) "ab_test_100" =
      Except.error "TypeError: NoneType object is not subscriptable" ∧
    route_request (sampleStore (sampleCfg "STOPPED" 1000 none) []) (1/2) "ab_test_100" =
      Except.ok "model-a" ∧
    route_request (sampleStore (sampleCfg "CREATED" 1000 none) []) (1/2) "ab_test_100" =
      Except.ok "model-a" := by
  refine ⟨rfl, ?_, ?_⟩ <;>
    simp [route_request, get_test_config, getTestEntry, sampleStore, sampleCfg]

/-! ### C4 -/

/-- C4 counterexample: `create_ab_test` called with traffic split 1.5 (and
otherwise valid parameters) raises nothing and persists a record with
status `CREATED`, contradicting the claimed `ConfigError` validation. -/
theorem create_invalid_split_persists_cex :
    ((get_test_config
        (create_ab_test { tests := [], predictions := [], reports := [] } 100
          "exp" "model-a" "model-b" 1.5 24 none 1000 (1/20)).2
        (create_ab_test { tests := [], predictions := [], reports := [] } 100
          "exp" "model-a" "model-b" 1.5 24 none 1000 (1/20)).1).map TestConfig.status) =
      some "CREATED" ∧
    ((get_test_config
        (create_ab_test { tests := [], predictions := [], reports := [] } 100
          "exp" "model-a" "model-b" 1.5 24 none 1000 (1/20)).2
        (create_ab_test { tests := [], predictions := [], reports := [] } 100
          "exp" "model-a" "model-b" 1.5 24 none 1000 (1/20)).1).map TestConfig.traffic_split) =
      some 1.5 := by
  constructor <;> simp [create_ab_test]

/-- C4 amended: `create_ab_test` performs no parameter validation at all:
for every traffic split, sample threshold, and duration — out-of-range
values included — it persists a record with status `CREATED` carrying those
values unchanged, and returns the time-derived id. -/
theorem create_never_validates (s : Store) (now : ℚ)
    (test_name baseline_model candidate_model : String) (p : ℚ) (dh : ℤ)
    (sm : Option (List String)) (ms : ℤ) (sl : ℚ) :
    ((get_test_config
        (create_ab_test s now test_name baseline_model candidate_model p dh sm ms sl).2
        (create_ab_test s now test_name baseline_model candidate_model p dh sm ms sl).1).map
      TestConfig.status) = some "CREATED" ∧
    ((get_test_config
        (create_ab_test s now test_name baseline_model candidate_model p dh sm ms sl).2
        (create_ab_test s now test_name baseline_model candidate_model p dh sm ms sl).1).map
      TestConfig.traffic_split) = some p ∧
    ((get_test_config
        (create_ab_test s now test_name baseline_model candidate_model p dh sm ms sl).2
        (create_ab_test s now test_name baseline_model candidate_model p dh sm ms sl).1).map
      TestConfig.min_samples) = some ms ∧
    ((get_test_config
        (create_ab_test s now test_name baseline_model candidate_model p dh sm ms sl).2
        (create_ab_test s now test_name baseline_model candidate_model p dh sm ms sl).1).map
      TestConfig.duration_hours) = some dh ∧
    (create_ab_test s now test_name baseline_model candidate_model p dh sm ms sl).1 =
      "ab_test_" ++ toString (Int.floor now) := by
  refine ⟨?_, ?_, ?_, ?_, rfl⟩ <;> simp [create_ab_test]

/-! ### C5 -/

/-- C5 counterexample: `start_ab_test` on a `STOPPED` experiment succeeds
and moves its status back to `RUNNING`, so stopped experiments are resumed
and the transition system is not one-directional. -/
theorem start_resumes_stopped_cex :
    (start_ab_test (sampleStore (sampleCfg "STOPPED" 1000 none) []) 500 "ab_test_100").1 =
      true ∧
    ((get_test_config
        (start_ab_test (sampleStore (sampleCfg "STOPPED" 1000 none) []) 500 "ab_test_100").2
        "ab_test_100").map TestConfig.status) = some "RUNNING" := by
  have h : get_test_config (sampleStore (sampleCfg "STOPPED" 1000 none) []) "ab_test_100" =
      some (sampleCfg "STOPPED" 1000 none) := by
    simp [get_test_config, getTestEntry, sampleStore]
  rw [start_ab_test_found 500 h]
  exact ⟨rfl, by simp⟩

/-- C5 amended: `start_ab_test` never inspects the status: on any
experiment present in the store — whatever its status, `STOPPED`
included — it succeeds and overwrites the status with `RUNNING`, recording
the actual start time; it fails only when the record is absent. -/
theorem start_ignores_status (s : Store) (now : ℚ) (id : String) (cfg : TestConfig)
    (h : get_test_config s id = some cfg) :
    (start_ab_test s now id).1 = true ∧
    get_test_config (start_ab_test s now id).2 id =
      some { cfg with status := "RUNNING", actual_start_time := some now } := by
  rw [start_ab_test_found now h]
  exact ⟨rfl, by simp⟩

/-- Witness for C5's amended theorem at a stopped concrete experiment. -/
theorem start_ignores_status_witness :
    (start_ab_test (sampleStore (sampleCfg "STOPPED" 1000 none) []) 650 "ab_test_100").1 =
      true ∧
    get_test_config
        (start_ab_test (sampleStore (sampleCfg "STOPPED" 1000 none) []) 650 "ab_test_100").2
        "ab_test_100" =
      some { sampleCfg "STOPPED" 1000 none with
             status := "RUNNING", actual_start_time := some 650 } :=
  start_ignores_status (sampleStore (sampleCfg "STOPPED" 1000 none) []) 650 "ab_test_100"
    (sampleCfg "STOPPED" 1000 none)
    (by simp [get_test_config, getTestEntry, sampleStore])

/-! ### C8 -/

/-- C8 counterexample: a second `stop_ab_test` on an already-`STOPPED`
experiment is not a no-op: it succeeds and overwrites the previously
recorded stop time (300 becomes 400) and stop reason ("Manual stop" becomes
"second stop"). -/
theorem stop_overwrites_previous_stop_cex :
    (stop_ab_test
        (sampleStore { sampleCfg "STOPPED" 1000 none with
          stop_time := some 300, stop_reason := some "Manual stop" } [])
        400 "ab_test_100" "second stop").1 = true ∧
    ((get_test_config
        (stop_ab_test
          (sampleStore { sampleCfg "STOPPED" 1000 none with
            stop_time := some 300, stop_reason := some "Manual stop" } [])
          400 "ab_test_100" "second stop").2 "ab_test_100").map TestConfig.stop_reason) =
      some (some "second stop") ∧
    ((get_test_config
        (stop_ab_test
          (sampleStore { sampleCfg "STOPPED" 1000 none with
            stop_time := some 300, stop_reason := some "Manual stop" } [])
          400 "ab_test_100" "second stop").2 "ab_test_100").map TestConfig.stop_time) =
      some (some 400) := by
  have h : get_test_config
      (sampleStore { sampleCfg "STOPPED" 1000 none with
        stop_time := some 300, stop_reason := some "Manual stop" } []) "ab_test_100" =
      some { sampleCfg "STOPPED" 1000 none with
        stop_time := some 300, stop_reason := some "Manual stop" } := by
    simp [get_test_config, getTestEntry, sampleStore]
  rw [stop_ab_test_found 400 "second stop" h]
  refine ⟨rfl, ?_, ?_⟩ <;> simp

/-- C8 amended: `stop_ab_test` on an already-`STOPPED` experiment re-runs
the full stop path: it reports success and overwrites the stored stop time
and stop reason with the new call's values (so a second stop with a
different reason or time changes the record). -/
theorem stop_on_stopped_reruns_stop_path (s : Store) (now : ℚ) (id reason : String)
    (cfg : TestConfig) (h : get_test_config s id = some cfg)
    (hst : cfg.status = "STOPPED") :
    (stop_ab_test s now id reason).1 = true ∧
    get_test_config (stop_ab_test s now id reason).2 id =
      some { cfg with stop_time := some now, stop_reason := some reason } := by
  rw [stop_ab_test_found now reason h]
  refine ⟨rfl, ?_⟩
  simp [hst]

/-- Witness for C8's amended theorem at a concrete twice-stopped
experiment. -/
theorem stop_on_stopped_reruns_stop_path_witness :
    (stop_ab_test
        (sampleStore { sampleCfg "STOPPED" 1000 none with
          stop_time := some 300, stop_reason := some "Manual stop" } [])
        450 "ab_test_100" "operator request").1 = true ∧
    get_test_config
        (stop_ab_test
          (sampleStore { sampleCfg "STOPPED" 1000 none with
            stop_time := some 300, stop_reason := some "Manual stop" } [])
          450 "ab_test_100" "operator request").2 "ab_test_100" =
      some { sampleCfg "STOPPED" 1000 none with
             stop_time := some 450, stop_reason := some "operator request" } :=
  stop_on_stopped_reruns_stop_path
    (sampleStore { sampleCfg "STOPPED" 1000 none with
      stop_time := some 300, stop_reason := some "Manual stop" } [])
    450 "ab_test_100" "operator request"
    { sampleCfg "STOPPED" 1000 none with
      stop_time := some 300, stop_reason := some "Manual stop" }
    (by simp [get_test_config, getTestEntry, sampleStore]) rfl

/-! ### C9 -/

/-- C9 counterexample: two `create_ab_test` calls 0.9 s apart (both within
second 5) receive the same id, and after the second call the store holds a
single record, the second one — the first experiment's record has been
overwritten. -/
theorem create_same_second_id_collision_cex :
    (create_ab_test { tests := [], predictions := [], reports := [] } 5
        "first" "model-a" "model-b" (1/10) 24 none 1000 (1/20)).1 =
      (create_ab_test
        (create_ab_test { tests := [], predictions := [], reports := [] } 5
          "first" "model-a" "model-b" (1/10) 24 none 1000 (1/20)).2
        (59/10) "second" "model-a" "model-b" (1/10) 24 none 1000 (1/20)).1 ∧
    ((create_ab_test
        (create_ab_test { tests := [], predictions := [], reports := [] } 5
          "first" "model-a" "model-b" (1/10) 24 none 1000 (1/20)).2
        (59/10) "second" "model-a" "model-b" (1/10) 24 none 1000 (1/20)).2.tests.map
      (fun e => e.2.1.test_name)) = ["second"] := by
  have h5 : (Int.floor (5 : ℚ)) = 5 := Int.floor_eq_iff.mpr (by norm_num)
  have h59 : (Int.floor (59/10 : ℚ)) = 5 := Int.floor_eq_iff.mpr (by norm_num)
  constructor
  · simp [create_ab_test, h5, h59]
  · simp [create_ab_test, setTestEntry, h5, h59]

/-- C9 amended: the assigned id is derived solely from the whole second of
the call time, so ids are fresh only across distinct seconds: two creates
whose call times share the same integer second receive the same id, and the
second call overwrites the record stored by the first. -/
theorem create_id_depends_only_on_second (s s2 : Store) (now now2 : ℚ)
    (hfl : Int.floor now = Int.floor now2)
    (n1 b1 c1 : String) (p1 : ℚ) (d1 : ℤ) (m1 : Option (List String)) (ms1 : ℤ) (sl1 : ℚ)
    (n2 b2 c2 : String) (p2 : ℚ) (d2 : ℤ) (m2 : Option (List String)) (ms2 : ℤ) (sl2 : ℚ) :
    (create_ab_test s now n1 b1 c1 p1 d1 m1 ms1 sl1).1 =
      (create_ab_test s2 now2 n2 b2 c2 p2 d2 m2 ms2 sl2).1 ∧
    ((get_test_config
        (create_ab_test (create_ab_test s now n1 b1 c1 p1 d1 m1 ms1 sl1).2
          now2 n2 b2 c2 p2 d2 m2 ms2 sl2).2
        (create_ab_test s now n1 b1 c1 p1 d1 m1 ms1 sl1).1).map TestConfig.test_name) =
      some n2 := by
  have hid : (create_ab_test s now n1 b1 c1 p1 d1 m1 ms1 sl1).1 =
      (create_ab_test s2 now2 n2 b2 c2 p2 d2 m2 ms2 sl2).1 := by
    simp [create_ab_test, hfl]
  refine ⟨hid, ?_⟩
  rw [show (create_ab_test s now n1 b1 c1 p1 d1 m1 ms1 sl1).1 =
    (create_ab_test (create_ab_test s now n1 b1 c1 p1 d1 m1 ms1 sl1).2
      now2 n2 b2 c2 p2 d2 m2 ms2 sl2).1 from by simp [create_ab_test, hfl]]
  simp [create_ab_test]

/-- Witness for C9's amended theorem: call times 5 s and 5.9 s. -/
theorem create_id_depends_only_on_second_witness :
    (create_ab_test { tests := [], predictions := [], reports := [] } 5
        "first" "model-a" "model-b" (1/10) 24 none 1000 (1/20)).1 =
      (create_ab_test { tests := [], predictions := [], reports := [] } (59/10)
        "second" "model-a" "model-b" (1/10) 24 none 1000 (1/20)).1 ∧
    ((get_test_config
        (create_ab_test
          (create_ab_test { tests := [], predictions := [], reports := [] } 5
            "first" "model-a" "model-b" (1/10) 24 none 1000 (1/20)).2
          (59/10) "second" "model-a" "model-b" (1/10) 24 none 1000 (1/20)).2
        (create_ab_test { tests := [], predictions := [], reports := [] } 5
          "first" "model-a" "model-b" (1/10) 24 none 1000 (1/20)).1).map
      TestConfig.test_name) = some "second" :=
  create_id_depends_only_on_second
    { tests := [], predictions := [], reports := [] }
    { tests := [], predictions := [], reports := [] } 5 (59/10)
    (by rw [Int.floor_eq_iff.mpr (by norm_num : ((5:ℤ):ℚ) ≤ (5:ℚ) ∧ (5:ℚ) < 5 + 1),
          Int.floor_eq_iff.mpr (by norm_num : ((5:ℤ):ℚ) ≤ (59/10:ℚ) ∧ (59/10:ℚ) < 5 + 1)])
    "first" "model-a" "model-b" (1/10) 24 none 1000 (1/20)
    "second" "model-a" "model-b" (1/10) 24 none 1000 (1/20)

/-! ### Monitor-step lemmas -/

/-- A `monitor_ab_tests` iteration on a `RUNNING` record whose end time has
not passed analyzes the experiment and branches on `_should_rollback`. -/
theorem monitor_step_analyze (sp : SciPy) (now : ℚ) (summary : MonitoringSummary)
    (s : Store) (key : String) (cfg : TestConfig)
    (h : get_test_config s key = some cfg) (hrun : cfg.status = "RUNNING")
    (hactive : ¬ cfg.end_time < now) :
    monitor_step sp now (summary, s) key =
      if should_rollback (analyze_ab_test sp s now cfg.test_id).1 then
        ({ summary with
            actions_taken := summary.actions_taken ++
              ["Rolled back test " ++ cfg.test_id ++ " - performance degradation"]
            alerts := summary.alerts ++
              ["CRITICAL: Automatic rollback triggered for test " ++ cfg.test_id] },
         (stop_ab_test (analyze_ab_test sp s now cfg.test_id).2 now cfg.test_id
            "Automatic rollback - performance degradation").2)
      else
        ({ summary with active_tests := summary.active_tests ++
            [{ test_id := cfg.test_id
               test_name := cfg.test_name
               traffic_split := cfg.traffic_split
               duration_remaining := cfg.end_time - now }] },
         (analyze_ab_test sp s now cfg.test_id).2) := by
  simp only [monitor_step]
  split
  · next heq =>
      rw [h] at heq
      exact absurd heq (by simp)
  · next cfg2 heq =>
      rw [h] at heq
      injection heq with hh
      subst hh
      rw [hrun]
      rw [if_pos (by simp), if_neg hactive]

/-! ### C6 -/

/-- C6 counterexample: stopping a running experiment that was never
analyzed succeeds but writes no report at all; and when a report is
written (an analysis exists), its stored value — exhibited in full — has no
stop-reason component, only summary metadata, results and a timestamp. -/
theorem stop_without_analysis_no_report_cex :
    (stop_ab_test (sampleStore (sampleCfg "RUNNING" 1000 none) []) 700 "ab_test_100"
      "Manual stop").1 = true ∧
    get_test_report (stop_ab_test (sampleStore (sampleCfg "RUNNING" 1000 none) []) 700
      "ab_test_100" "Manual stop").2 "ab_test_100" = none ∧
    get_test_report (stop_ab_test
        (sampleStore (sampleCfg "RUNNING" 1000 (some sampleAnalysis)) []) 700
        "ab_test_100" "operator choice").2 "ab_test_100" =
      some ⟨⟨"ab_test_100", "exp", 700, "STOPPED"⟩, sampleAnalysis, 700⟩ := by
  have h1 : get_test_config (sampleStore (sampleCfg "RUNNING" 1000 none) []) "ab_test_100" =
      some (sampleCfg "RUNNING" 1000 none) := by
    simp [get_test_config, getTestEntry, sampleStore]
  have h2 : get_test_config (sampleStore (sampleCfg "RUNNING" 1000 (some sampleAnalysis)) [])
      "ab_test_100" = some (sampleCfg "RUNNING" 1000 (some sampleAnalysis)) := by
    simp [get_test_config, getTestEntry, sampleStore]
  have hc1 : get_test_config
      (update_test_config (sampleStore (sampleCfg "RUNNING" 1000 none) []) "ab_test_100"
        { sampleCfg "RUNNING" 1000 none with
          status := "STOPPED", stop_time := some 700, stop_reason := some "Manual stop" })
      "ab_test_100" =
      some { sampleCfg "RUNNING" 1000 none with
        status := "STOPPED", stop_time := some 700, stop_reason := some "Manual stop" } := by
    simp
  have hc2 : get_test_config
      (update_test_config (sampleStore (sampleCfg "RUNNING" 1000 (some sampleAnalysis)) [])
        "ab_test_100"
        { sampleCfg "RUNNING" 1000 (some sampleAnalysis) with
          status := "STOPPED", stop_time := some 700, stop_reason := some "operator choice" })
      "ab_test_100" =
      some { sampleCfg "RUNNING" 1000 (some sampleAnalysis) with
        status := "STOPPED", stop_time := some 700, stop_reason := some "operator choice" } := by
    simp
  refine ⟨by rw [stop_ab_test_found 700 "Manual stop" h1], ?_, ?_⟩
  · rw [stop_ab_test_found 700 "Manual stop" h1]
    rw [generate_test_report_found 700 hc1]
    simp [get_test_report, getReportEntry, update_test_config, setTestEntry, sampleStore,
      sampleCfg]
  · rw [stop_ab_test_found 700 "operator choice" h2]
    rw [generate_test_report_found 700 hc2]
    simp [sampleCfg]

/-- C6 amended: after a successful `stop_ab_test` a report exists only when
the experiment record carries a `last_analysis`; in that case the stored
report holds the lifecycle summary (id, name, stop time, `STOPPED`
status), the last analysis and the generated-at timestamp — but not the
stop reason; with no prior analysis the report store is left untouched. -/
theorem report_exists_iff_last_analysis (s : Store) (now : ℚ) (id reason : String)
    (cfg : TestConfig) (h : get_test_config s id = some cfg) :
    (stop_ab_test s now id reason).1 = true ∧
    get_test_report (stop_ab_test s now id reason).2 id =
      (match cfg.last_analysis with
       | none => get_test_report s id
       | some analysis =>
           some ⟨⟨id, cfg.test_name, now, "STOPPED"⟩, analysis, now⟩) := by
  rw [stop_ab_test_found now reason h]
  refine ⟨rfl, ?_⟩
  have hc2 : get_test_config
      (update_test_config s id
        { cfg with status := "STOPPED", stop_time := some now, stop_reason := some reason })
      id =
      some { cfg with status := "STOPPED", stop_time := some now, stop_reason := some reason } := by
    simp
  rw [generate_test_report_found now hc2]
  cases hla : cfg.last_analysis with
  | none =>
      simp only [hla]
      exact get_test_report_congr (reports_update_test_config s id _) id
  | some analysis => simp [hla]

/-- Witness for C6's amended theorem, at a concrete record carrying an
analysis. -/
theorem report_exists_iff_last_analysis_witness :
    (stop_ab_test (sampleStore (sampleCfg "RUNNING" 1000 (some sampleAnalysis)) []) 800
      "ab_test_100" "Manual stop").1 = true ∧
    get_test_report (stop_ab_test
        (sampleStore (sampleCfg "RUNNING" 1000 (some sampleAnalysis)) []) 800
        "ab_test_100" "Manual stop").2 "ab_test_100" =
      some ⟨⟨"ab_test_100", "exp", 800, "STOPPED"⟩, sampleAnalysis, 800⟩ := by
  have := report_exists_iff_last_analysis
    (sampleStore (sampleCfg "RUNNING" 1000 (some sampleAnalysis)) []) 800
    "ab_test_100" "Manual stop" (sampleCfg "RUNNING" 1000 (some sampleAnalysis))
    (by simp [get_test_config, getTestEntry, sampleStore])
  simpa [sampleCfg] using this

/-! ### C1 -/

/-- C1 counterexample: both arms meet the sample minimum (2 records each
against `min_samples = 2`), the experiment is `RUNNING` and unexpired, and
the candidate/baseline mean-latency ratio of 1.51 satisfies the claimed
rollback predicate — yet, because every record is a success, the chi-square
call raises (zero failure marginal), `analyze_ab_test` returns an error
dictionary, `_should_rollback` sees no stats and the tick leaves the
experiment `RUNNING` with no action and no alert. -/
theorem monitor_misses_rollback_all_success_cex :
    ((sampleCfg "RUNNING" 2 none).min_samples ≤
      ((get_prediction_data
        (sampleStore (sampleCfg "RUNNING" 2 none)
          [sampleRec "model-a" 100 true, sampleRec "model-a" 100 true,
           sampleRec "model-b" 151 true, sampleRec "model-b" 151 true])
        "ab_test_100" (sampleCfg "RUNNING" 2 none).baseline_model).length : ℤ) ∧
     (sampleCfg "RUNNING" 2 none).min_samples ≤
      ((get_prediction_data
        (sampleStore (sampleCfg "RUNNING" 2 none)
          [sampleRec "model-a" 100 true, sampleRec "model-a" 100 true,
           sampleRec "model-b" 151 true, sampleRec "model-b" 151 true])
        "ab_test_100" (sampleCfg "RUNNING" 2 none).candidate_model).length : ℤ)) ∧
    dictAvgResponseTime (calculate_model_stats (get_prediction_data
        (sampleStore (sampleCfg "RUNNING" 2 none)
          [sampleRec "model-a" 100 true, sampleRec "model-a" 100 true,
           sampleRec "model-b" 151 true, sampleRec "model-b" 151 true])
        "ab_test_100" (sampleCfg "RUNNING" 2 none).candidate_model)) >
      dictAvgResponseTime (calculate_model_stats (get_prediction_data
        (sampleStore (sampleCfg "RUNNING" 2 none)
          [sampleRec "model-a" 100 true, sampleRec "model-a" 100 true,
           sampleRec "model-b" 151 true, sampleRec "model-b" 151 true])
        "ab_test_100" (sampleCfg "RUNNING" 2 none).baseline_model)) * 1.5 ∧
    ((get_test_config (monitor_ab_tests constSciPy
        (sampleStore (sampleCfg "RUNNING" 2 none)
          [sampleRec "model-a" 100 true, sampleRec "model-a" 100 true,
           sampleRec "model-b" 151 true, sampleRec "model-b" 151 true]) 200).2
        "ab_test_100").map TestConfig.status = some "RUNNING") ∧
    (monitor_ab_tests constSciPy
        (sampleStore (sampleCfg "RUNNING" 2 none)
          [sampleRec "model-a" 100 true, sampleRec "model-a" 100 true,
           sampleRec "model-b" 151 true, sampleRec "model-b" 151 true]) 200).1.actions_taken =
      [] ∧
    (monitor_ab_tests constSciPy
        (sampleStore (sampleCfg "RUNNING" 2 none)
          [sampleRec "model-a" 100 true, sampleRec "model-a" 100 true,
           sampleRec "model-b" 151 true, sampleRec "model-b" 151 true]) 200).1.alerts = [] := by
  have h : get_test_config
      (sampleStore (sampleCfg "RUNNING" 2 none)
        [sampleRec "model-a" 100 true, sampleRec "model-a" 100 true,
         sampleRec "model-b" 151 true, sampleRec "model-b" 151 true]) "ab_test_100" =
      some (sampleCfg "RUNNING" 2 none) := by
    simp [get_test_config, getTestEntry, sampleStore]
  have hgb : get_prediction_data
      (sampleStore (sampleCfg "RUNNING" 2 none)
        [sampleRec "model-a" 100 true, sampleRec "model-a" 100 true,
         sampleRec "model-b" 151 true, sampleRec "model-b" 151 true])
      "ab_test_100" (sampleCfg "RUNNING" 2 none).baseline_model =
      [sampleRec "model-a" 100 true, sampleRec "model-a" 100 true] := by decide
  have hgc : get_prediction_data
      (sampleStore (sampleCfg "RUNNING" 2 none)
        [sampleRec "model-a" 100 true, sampleRec "model-a" 100 true,
         sampleRec "model-b" 151 true, sampleRec "model-b" 151 true])
      "ab_test_100" (sampleCfg "RUNNING" 2 none).candidate_model =
      [sampleRec "model-b" 151 true, sampleRec "model-b" 151 true] := by decide
  have hana : analyze_ab_test constSciPy
      (sampleStore (sampleCfg "RUNNING" 2 none)
        [sampleRec "model-a" 100 true, sampleRec "model-a" 100 true,
         sampleRec "model-b" 151 true, sampleRec "model-b" 151 true]) 200 "ab_test_100" =
      (none,
       sampleStore (sampleCfg "RUNNING" 2 none)
        [sampleRec "model-a" 100 true, sampleRec "model-a" 100 true,
         sampleRec "model-b" 151 true, sampleRec "model-b" 151 true]) := by
    rw [analyze_ab_test_found constSciPy 200 h,
      analyze_with_config_chi2_error constSciPy _ 200 "ab_test_100"
        (sampleCfg "RUNNING" 2 none) (by decide) (by decide) (by decide)
        (Or.inr (by decide))]
  have hfold : monitor_ab_tests constSciPy
      (sampleStore (sampleCfg "RUNNING" 2 none)
        [sampleRec "model-a" 100 true, sampleRec "model-a" 100 true,
         sampleRec "model-b" 151 true, sampleRec "model-b" 151 true]) 200 =
      monitor_step constSciPy 200
        (⟨200, [], [], []⟩,
         sampleStore (sampleCfg "RUNNING" 2 none)
           [sampleRec "model-a" 100 true, sampleRec "model-a" 100 true,
            sampleRec "model-b" 151 true, sampleRec "model-b" 151 true]) "ab_test_100" := rfl
  have hrunning : (sampleCfg "RUNNING" 2 none).status = "RUNNING" := rfl
  have hact : ¬ (sampleCfg "RUNNING" 2 none).end_time < 200 := by
    norm_num [sampleCfg, hourSeconds]
  have hstep := monitor_step_analyze constSciPy 200 ⟨200, [], [], []⟩
    (sampleStore (sampleCfg "RUNNING" 2 none)
      [sampleRec "model-a" 100 true, sampleRec "model-a" 100 true,
       sampleRec "model-b" 151 true, sampleRec "model-b" 151 true])
    "ab_test_100" (sampleCfg "RUNNING" 2 none) h hrunning hact
  rw [show (sampleCfg "RUNNING" 2 none).test_id = "ab_test_100" from rfl, hana,
    if_neg (by simp [should_rollback])] at hstep
  refine ⟨⟨by decide, by decide⟩, ?_, ?_, ?_, ?_⟩
  · rw [hgc, hgb]
    norm_num [calculate_model_stats, dictAvgResponseTime, mean, sampleRec]
  · rw [hfold, hstep]
    simp only [h, Option.map_some']
    rfl
  · rw [hfold, hstep]
  · rw [hfold, hstep]

/-- C1 amended: on a `RUNNING` experiment whose scheduled end time has not
passed, whose two arms both meet the (positive) minimum sample count, and
whose pooled outcome records contain at least one success and at least one
failure (a nonzero chi-square column marginal, so the analysis completes
instead of aborting in scipy), a monitor iteration stops it — with the
automatic-rollback stop reason and a critical alert — if and only if the
candidate error rate strictly exceeds twice the baseline error rate or the
candidate mean latency strictly exceeds 1.5 times the baseline mean
latency; when the predicate does not hold the record is left with status
`RUNNING`. -/
theorem monitor_rollback_iff_degradation (sp : SciPy) (s : Store) (now : ℚ)
    (summary : MonitoringSummary) (id : String) (cfg : TestConfig)
    (h : get_test_config s id = some cfg) (hid : cfg.test_id = id)
    (hrun : cfg.status = "RUNNING") (hactive : ¬ cfg.end_time < now)
    (hmin : 1 ≤ cfg.min_samples)
    (hbase : cfg.min_samples ≤ ((get_prediction_data s id cfg.baseline_model).length : ℤ))
    (hcand : cfg.min_samples ≤ ((get_prediction_data s id cfg.candidate_model).length : ℤ))
    (hmarg : ((get_prediction_data s id cfg.baseline_model).filter (·.success)).length +
          ((get_prediction_data s id cfg.candidate_model).filter (·.success)).length ≠ 0 ∧
        ((get_prediction_data s id cfg.baseline_model).length -
          ((get_prediction_data s id cfg.baseline_model).filter (·.success)).length) +
        ((get_prediction_data s id cfg.candidate_model).length -
          ((get_prediction_data s id cfg.candidate_model).filter (·.success)).length) ≠ 0) :
    (((get_test_config (monitor_step sp now (summary, s) id).2 id).map TestConfig.status =
        some "STOPPED" ∧
      ((get_test_config (monitor_step sp now (summary, s) id).2 id).bind
        TestConfig.stop_reason) = some "Automatic rollback - performance degradation" ∧
      (monitor_step sp now (summary, s) id).1.alerts =
        summary.alerts ++ ["CRITICAL: Automatic rollback triggered for test " ++ id]) ↔
      (dictErrorRate (calculate_model_stats (get_prediction_data s id cfg.candidate_model)) >
        dictErrorRate (calculate_model_stats (get_prediction_data s id cfg.baseline_model)) * 2 ∨
       dictAvgResponseTime (calculate_model_stats (get_prediction_data s id cfg.candidate_model)) >
        dictAvgResponseTime (calculate_model_stats (get_prediction_data s id cfg.baseline_model))
          * 1.5)) ∧
    (¬ (dictErrorRate (calculate_model_stats (get_prediction_data s id cfg.candidate_model)) >
        dictErrorRate (calculate_model_stats (get_prediction_data s id cfg.baseline_model)) * 2 ∨
       dictAvgResponseTime (calculate_model_stats (get_prediction_data s id cfg.candidate_model)) >
        dictAvgResponseTime (calculate_model_stats (get_prediction_data s id cfg.baseline_model))
          * 1.5) →
      (get_test_config (monitor_step sp now (summary, s) id).2 id).map TestConfig.status =
        some "RUNNING") := by
  have hbne : get_prediction_data s id cfg.baseline_model ≠ [] :=
    List.ne_nil_of_length_pos (by omega)
  have hcne : get_prediction_data s id cfg.candidate_model ≠ [] :=
    List.ne_nil_of_length_pos (by omega)
  obtain ⟨r, heq, hbs, hcs⟩ :=
    analyze_with_config_sufficient sp s now id cfg ⟨hbase, hcand⟩ hbne hcne hmarg
  have hana : analyze_ab_test sp s now id = (some r, s) := by
    rw [analyze_ab_test_found sp now h, heq]
  have hstore : (analyze_ab_test sp s now id).2 = s := by rw [hana]
  by_cases hP :
      dictErrorRate (calculate_model_stats (get_prediction_data s id cfg.candidate_model)) >
        dictErrorRate (calculate_model_stats (get_prediction_data s id cfg.baseline_model)) * 2 ∨
      dictAvgResponseTime (calculate_model_stats (get_prediction_data s id cfg.candidate_model)) >
        dictAvgResponseTime (calculate_model_stats (get_prediction_data s id cfg.baseline_model))
          * 1.5
  · have hsrt : should_rollback (analyze_ab_test sp s now id).1 = true := by
      rw [hana]
      simp only [should_rollback, hbs, hcs, Bool.or_eq_true, decide_eq_true_eq]
      exact hP
    rw [monitor_step_analyze sp now summary s id cfg h hrun hactive, hid, if_pos hsrt]
    have hc2 : get_test_config (analyze_ab_test sp s now id).2 id = some cfg := by
      rw [hstore]
      exact h
    rw [stop_ab_test_found now "Automatic rollback - performance degradation" hc2]
    exact ⟨iff_of_true ⟨by simp, by simp, by simp⟩ hP, fun hn => absurd hP hn⟩
  · have hsrf : ¬ should_rollback (analyze_ab_test sp s now id).1 = true := by
      rw [hana]
      simp only [should_rollback, hbs, hcs, Bool.or_eq_true, decide_eq_true_eq]
      exact hP
    rw [monitor_step_analyze sp now summary s id cfg h hrun hactive, hid, if_neg hsrf]
    have hstat : (get_test_config (analyze_ab_test sp s now id).2 id).map TestConfig.status =
        some "RUNNING" := by
      rw [hstore, h, Option.map_some', hrun]
    refine ⟨iff_of_false ?_ hP, fun _ => hstat⟩
    rintro ⟨h1, -, -⟩
    rw [hstat] at h1
    exact absurd (Option.some.inj h1) (by decide)

/-- Witness for C1's amended theorem: one baseline record fails (so both
chi-square column marginals are nonzero and the analysis completes);
candidate mean latency 151 ms vs baseline 100 ms (ratio 1.51) triggers the
stop with the rollback reason, while 149 ms (ratio 1.49) leaves the
experiment `RUNNING`. -/
theorem monitor_rollback_iff_degradation_witness :
    ((get_test_config (monitor_step constSciPy 200
        (⟨200, [], [], []⟩,
         sampleStore (sampleCfg "RUNNING" 2 none)
           [sampleRec "model-a" 100 true, sampleRec "model-a" 100 false,
            sampleRec "model-b" 151 true, sampleRec "model-b" 151 true]) "ab_test_100").2
        "ab_test_100").map TestConfig.status = some "STOPPED" ∧
      ((get_test_config (monitor_step constSciPy 200
        (⟨200, [], [], []⟩,
         sampleStore (sampleCfg "RUNNING" 2 none)
           [sampleRec "model-a" 100 true, sampleRec "model-a" 100 false,
            sampleRec "model-b" 151 true, sampleRec "model-b" 151 true]) "ab_test_100").2
        "ab_test_100").bind TestConfig.stop_reason) =
        some "Automatic rollback - performance degradation") ∧
    ((get_test_config (monitor_step constSciPy 200
        (⟨200, [], [], []⟩,
         sampleStore (sampleCfg "RUNNING" 2 none)
           [sampleRec "model-a" 100 true, sampleRec "model-a" 100 false,
            sampleRec "model-b" 149 true, sampleRec "model-b" 149 true]) "ab_test_100").2
        "ab_test_100").map TestConfig.status = some "RUNNING") := by
  have hgb151 : get_prediction_data
      (sampleStore (sampleCfg "RUNNING" 2 none)
        [sampleRec "model-a" 100 true, sampleRec "model-a" 100 false,
         sampleRec "model-b" 151 true, sampleRec "model-b" 151 true])
      "ab_test_100" (sampleCfg "RUNNING" 2 none).baseline_model =
      [sampleRec "model-a" 100 true, sampleRec "model-a" 100 false] := by decide
  have hgc151 : get_prediction_data
      (sampleStore (sampleCfg "RUNNING" 2 none)
        [sampleRec "model-a" 100 true, sampleRec "model-a" 100 false,
         sampleRec "model-b" 151 true, sampleRec "model-b" 151 true])
      "ab_test_100" (sampleCfg "RUNNING" 2 none).candidate_model =
      [sampleRec "model-b" 151 true, sampleRec "model-b" 151 true] := by decide
  have hgb149 : get_prediction_data
      (sampleStore (sampleCfg "RUNNING" 2 none)
        [sampleRec "model-a" 100 true, sampleRec "model-a" 100 false,
         sampleRec "model-b" 149 true, sampleRec "model-b" 149 true])
      "ab_test_100" (sampleCfg "RUNNING" 2 none).baseline_model =
      [sampleRec "model-a" 100 true, sampleRec "model-a" 100 false] := by decide
  have hgc149 : get_prediction_data
      (sampleStore (sampleCfg "RUNNING" 2 none)
        [sampleRec "model-a" 100 true, sampleRec "model-a" 100 false,
         sampleRec "model-b" 149 true, sampleRec "model-b" 149 true])
      "ab_test_100" (sampleCfg "RUNNING" 2 none).candidate_model =
      [sampleRec "model-b" 149 true, sampleRec "model-b" 149 true] := by decide
  have key151 := monitor_rollback_iff_degradation constSciPy
    (sampleStore (sampleCfg "RUNNING" 2 none)
      [sampleRec "model-a" 100 true, sampleRec "model-a" 100 false,
       sampleRec "model-b" 151 true, sampleRec "model-b" 151 true])
    200 ⟨200, [], [], []⟩ "ab_test_100" (sampleCfg "RUNNING" 2 none)
    (by simp [get_test_config, getTestEntry, sampleStore]) rfl rfl
    (by norm_num [sampleCfg, hourSeconds]) (by norm_num [sampleCfg])
    (by rw [hgb151]; norm_num [sampleCfg]) (by rw [hgc151]; norm_num [sampleCfg])
    ⟨by decide, by decide⟩
  have key149 := monitor_rollback_iff_degradation constSciPy
    (sampleStore (sampleCfg "RUNNING" 2 none)
      [sampleRec "model-a" 100 true, sampleRec "model-a" 100 false,
       sampleRec "model-b" 149 true, sampleRec "model-b" 149 true])
    200 ⟨200, [], [], []⟩ "ab_test_100" (sampleCfg "RUNNING" 2 none)
    (by simp [get_test_config, getTestEntry, sampleStore]) rfl rfl
    (by norm_num [sampleCfg, hourSeconds]) (by norm_num [sampleCfg])
    (by rw [hgb149]; norm_num [sampleCfg]) (by rw [hgc149]; norm_num [sampleCfg])
    ⟨by decide, by decide⟩
  obtain ⟨w1, w2, -⟩ := key151.1.mpr (Or.inr (by
    rw [hgc151, hgb151]
    norm_num [calculate_model_stats, dictAvgResponseTime, mean, sampleRec]))
  refine ⟨⟨w1, w2⟩, key149.2 ?_⟩
  rintro (hbad | hbad)
  · rw [hgc149, hgb149] at hbad
    norm_num [calculate_model_stats, dictErrorRate, sampleRec] at hbad
  · rw [hgc149, hgb149] at hbad
    norm_num [calculate_model_stats, dictAvgResponseTime, mean, sampleRec] at hbad

/-! ### C2 -/

/-- C2 counterexample: a running experiment whose two arms are far below
the 1000-sample minimum (2 records each) is nonetheless rolled back by a
monitor tick when the small-sample aggregates breach the predicate
(candidate error rate 1/2 against baseline 0): the tick stops it with the
automatic-rollback reason and takes an action, so the rollback predicate is
applied below the minimum-sample threshold. -/
theorem monitor_rolls_back_below_min_samples_cex :
    (((get_prediction_data
        (sampleStore (sampleCfg "RUNNING" 1000 none)
          [sampleRec "model-a" 100 true, sampleRec "model-a" 100 true,
           sampleRec "model-b" 100 true, sampleRec "model-b" 100 false])
        "ab_test_100" "model-a").length : ℤ) < 1000 ∧
     ((get_prediction_data
        (sampleStore (sampleCfg "RUNNING" 1000 none)
          [sampleRec "model-a" 100 true, sampleRec "model-a" 100 true,
           sampleRec "model-b" 100 true, sampleRec "model-b" 100 false])
        "ab_test_100" "model-b").length : ℤ) < 1000) ∧
    ((get_test_config (monitor_ab_tests constSciPy
        (sampleStore (sampleCfg "RUNNING" 1000 none)
          [sampleRec "model-a" 100 true, sampleRec "model-a" 100 true,
           sampleRec "model-b" 100 true, sampleRec "model-b" 100 false]) 200).2
        "ab_test_100").map TestConfig.status = some "STOPPED") ∧
    ((get_test_config (monitor_ab_tests constSciPy
        (sampleStore (sampleCfg "RUNNING" 1000 none)
          [sampleRec "model-a" 100 true, sampleRec "model-a" 100 true,
           sampleRec "model-b" 100 true, sampleRec "model-b" 100 false]) 200).2
        "ab_test_100").bind TestConfig.stop_reason =
      some "Automatic rollback - performance degradation") ∧
    (monitor_ab_tests constSciPy
        (sampleStore (sampleCfg "RUNNING" 1000 none)
          [sampleRec "model-a" 100 true, sampleRec "model-a" 100 true,
           sampleRec "model-b" 100 true, sampleRec "model-b" 100 false]) 200).1.actions_taken ≠
      [] := by
  have h : get_test_config
      (sampleStore (sampleCfg "RUNNING" 1000 none)
        [sampleRec "model-a" 100 true, sampleRec "model-a" 100 true,
         sampleRec "model-b" 100 true, sampleRec "model-b" 100 false]) "ab_test_100" =
      some (sampleCfg "RUNNING" 1000 none) := by
    simp [get_test_config, getTestEntry, sampleStore]
  have hgb : get_prediction_data
      (sampleStore (sampleCfg "RUNNING" 1000 none)
        [sampleRec "model-a" 100 true, sampleRec "model-a" 100 true,
         sampleRec "model-b" 100 true, sampleRec "model-b" 100 false])
      "ab_test_100" (sampleCfg "RUNNING" 1000 none).baseline_model =
      [sampleRec "model-a" 100 true, sampleRec "model-a" 100 true] := by decide
  have hgc : get_prediction_data
      (sampleStore (sampleCfg "RUNNING" 1000 none)
        [sampleRec "model-a" 100 true, sampleRec "model-a" 100 true,
         sampleRec "model-b" 100 true, sampleRec "model-b" 100 false])
      "ab_test_100" (sampleCfg "RUNNING" 1000 none).candidate_model =
      [sampleRec "model-b" 100 true, sampleRec "model-b" 100 false] := by decide
  obtain ⟨r, heq, -, -, hbs, hcs⟩ := analyze_with_config_insufficient constSciPy
    (sampleStore (sampleCfg "RUNNING" 1000 none)
      [sampleRec "model-a" 100 true, sampleRec "model-a" 100 true,
       sampleRec "model-b" 100 true, sampleRec "model-b" 100 false])
    200 "ab_test_100" (sampleCfg "RUNNING" 1000 none)
    (by rw [hgb, hgc]; norm_num [sampleCfg])
  have hana : analyze_ab_test constSciPy
      (sampleStore (sampleCfg "RUNNING" 1000 none)
        [sampleRec "model-a" 100 true, sampleRec "model-a" 100 true,
         sampleRec "model-b" 100 true, sampleRec "model-b" 100 false]) 200 "ab_test_100" =
      (some r, update_test_config
        (sampleStore (sampleCfg "RUNNING" 1000 none)
          [sampleRec "model-a" 100 true, sampleRec "model-a" 100 true,
           sampleRec "model-b" 100 true, sampleRec "model-b" 100 false]) "ab_test_100"
        { sampleCfg "RUNNING" 1000 none with last_analysis := some r }) := by
    rw [analyze_ab_test_found constSciPy 200 h, heq]
  have hsrt : should_rollback (analyze_ab_test constSciPy
      (sampleStore (sampleCfg "RUNNING" 1000 none)
        [sampleRec "model-a" 100 true, sampleRec "model-a" 100 true,
         sampleRec "model-b" 100 true, sampleRec "model-b" 100 false]) 200 "ab_test_100").1 =
      true := by
    rw [hana]
    simp only [should_rollback, hbs, hcs, Bool.or_eq_true, decide_eq_true_eq]
    left
    rw [hgb, hgc]
    norm_num [calculate_model_stats, dictErrorRate, sampleRec]
  have hfold : monitor_ab_tests constSciPy
      (sampleStore (sampleCfg "RUNNING" 1000 none)
        [sampleRec "model-a" 100 true, sampleRec "model-a" 100 true,
         sampleRec "model-b" 100 true, sampleRec "model-b" 100 false]) 200 =
      monitor_step constSciPy 200
        (⟨200, [], [], []⟩,
         sampleStore (sampleCfg "RUNNING" 1000 none)
           [sampleRec "model-a" 100 true, sampleRec "model-a" 100 true,
            sampleRec "model-b" 100 true, sampleRec "model-b" 100 false]) "ab_test_100" := rfl
  refine ⟨⟨by rw [hgb] at *; decide, by rw [hgc] at *; decide⟩, ?_, ?_, ?_⟩ <;>
    · rw [hfold, monitor_step_analyze constSciPy 200 ⟨200, [], [], []⟩ _ "ab_test_100"
        (sampleCfg "RUNNING" 1000 none) h rfl (by norm_num [sampleCfg, hourSeconds]),
        if_pos (by rw [show (sampleCfg "RUNNING" 1000 none).test_id = "ab_test_100" from rfl]
                   exact hsrt)]
      rw [show (sampleCfg "RUNNING" 1000 none).test_id = "ab_test_100" from rfl]
      have hc2 : get_test_config (analyze_ab_test constSciPy
          (sampleStore (sampleCfg "RUNNING" 1000 none)
            [sampleRec "model-a" 100 true, sampleRec "model-a" 100 true,
             sampleRec "model-b" 100 true, sampleRec "model-b" 100 false]) 200
            "ab_test_100").2 "ab_test_100" =
          some { sampleCfg "RUNNING" 1000 none with last_analysis := some r } := by
        rw [hana]
        simp
      rw [stop_ab_test_found 200 "Automatic rollback - performance degradation" hc2]
      simp

/-- C2 amended: a monitor tick does not gate the rollback check on the
minimum sample count: on a running, unexpired experiment with either arm
below `min_samples`, the tick still applies the rollback predicate to the
small-sample per-arm aggregates and stops the experiment exactly when the
predicate holds; only otherwise is it left running and reported among the
still-running experiments. -/
theorem monitor_applies_rollback_below_min_samples (sp : SciPy) (s : Store) (now : ℚ)
    (summary : MonitoringSummary) (id : String) (cfg : TestConfig)
    (h : get_test_config s id = some cfg) (hid : cfg.test_id = id)
    (hrun : cfg.status = "RUNNING") (hactive : ¬ cfg.end_time < now)
    (hlow : ((get_prediction_data s id cfg.baseline_model).length : ℤ) < cfg.min_samples ∨
            ((get_prediction_data s id cfg.candidate_model).length : ℤ) < cfg.min_samples) :
    (((get_test_config (monitor_step sp now (summary, s) id).2 id).map TestConfig.status =
        some "STOPPED" ∧
      ((get_test_config (monitor_step sp now (summary, s) id).2 id).bind
        TestConfig.stop_reason) = some "Automatic rollback - performance degradation") ↔
      (dictErrorRate (calculate_model_stats (get_prediction_data s id cfg.candidate_model)) >
        dictErrorRate (calculate_model_stats (get_prediction_data s id cfg.baseline_model)) * 2 ∨
       dictAvgResponseTime (calculate_model_stats (get_prediction_data s id cfg.candidate_model)) >
        dictAvgResponseTime (calculate_model_stats (get_prediction_data s id cfg.baseline_model))
          * 1.5)) ∧
    (¬ (dictErrorRate (calculate_model_stats (get_prediction_data s id cfg.candidate_model)) >
        dictErrorRate (calculate_model_stats (get_prediction_data s id cfg.baseline_model)) * 2 ∨
       dictAvgResponseTime (calculate_model_stats (get_prediction_data s id cfg.candidate_model)) >
        dictAvgResponseTime (calculate_model_stats (get_prediction_data s id cfg.baseline_model))
          * 1.5) →
      ((get_test_config (monitor_step sp now (summary, s) id).2 id).map TestConfig.status =
        some "RUNNING" ∧
       (monitor_step sp now (summary, s) id).1.active_tests = summary.active_tests ++
         [{ test_id := id, test_name := cfg.test_name, traffic_split := cfg.traffic_split,
            duration_remaining := cfg.end_time - now }])) := by
  obtain ⟨r, heq, -, -, hbs, hcs⟩ := analyze_with_config_insufficient sp s now id cfg (by omega)
  have hana : analyze_ab_test sp s now id =
      (some r, update_test_config s id { cfg with last_analysis := some r }) := by
    rw [analyze_ab_test_found sp now h, heq]
  by_cases hP :
      dictErrorRate (calculate_model_stats (get_prediction_data s id cfg.candidate_model)) >
        dictErrorRate (calculate_model_stats (get_prediction_data s id cfg.baseline_model)) * 2 ∨
      dictAvgResponseTime (calculate_model_stats (get_prediction_data s id cfg.candidate_model)) >
        dictAvgResponseTime (calculate_model_stats (get_prediction_data s id cfg.baseline_model))
          * 1.5
  · have hsrt : should_rollback (analyze_ab_test sp s now id).1 = true := by
      rw [hana]
      simp only [should_rollback, hbs, hcs, Bool.or_eq_true, decide_eq_true_eq]
      exact hP
    rw [monitor_step_analyze sp now summary s id cfg h hrun hactive, hid, if_pos hsrt]
    have hc2 : get_test_config (analyze_ab_test sp s now id).2 id =
        some { cfg with last_analysis := some r } := by
      rw [hana]
      simp
    rw [stop_ab_test_found now "Automatic rollback - performance degradation" hc2]
    exact ⟨iff_of_true ⟨by simp, by simp⟩ hP, fun hn => absurd hP hn⟩
  · have hsrf : ¬ should_rollback (analyze_ab_test sp s now id).1 = true := by
      rw [hana]
      simp only [should_rollback, hbs, hcs, Bool.or_eq_true, decide_eq_true_eq]
      exact hP
    rw [monitor_step_analyze sp now summary s id cfg h hrun hactive, hid, if_neg hsrf]
    have hstat : (get_test_config (analyze_ab_test sp s now id).2 id).map TestConfig.status =
        some "RUNNING" := by
      rw [hana]
      simp only [get_test_config_update_self, Option.map_some']
      rw [show ({ cfg with last_analysis := some r } : TestConfig).status = cfg.status from rfl,
        hrun]
    refine ⟨iff_of_false ?_ hP, fun _ => ⟨hstat, by simp⟩⟩
    rintro ⟨h1, -⟩
    rw [hstat] at h1
    exact absurd (Option.some.inj h1) (by decide)

/-- Witness for C2's amended theorem: 2 records per arm against a
1000-sample minimum, candidate error rate 1/2 against baseline 0. -/
theorem monitor_applies_rollback_below_min_samples_witness :
    ((get_test_config (monitor_step constSciPy 200
        (⟨200, [], [], []⟩,
         sampleStore (sampleCfg "RUNNING" 1000 none)
           [sampleRec "model-a" 120 true, sampleRec "model-a" 120 true,
            sampleRec "model-b" 120 true, sampleRec "model-b" 120 false]) "ab_test_100").2
        "ab_test_100").map TestConfig.status = some "STOPPED") ∧
    ((get_test_config (monitor_step constSciPy 200
        (⟨200, [], [], []⟩,
         sampleStore (sampleCfg "RUNNING" 1000 none)
           [sampleRec "model-a" 120 true, sampleRec "model-a" 120 true,
            sampleRec "model-b" 120 true, sampleRec "model-b" 120 false]) "ab_test_100").2
        "ab_test_100").bind TestConfig.stop_reason =
      some "Automatic rollback - performance degradation") := by
  have hgb : get_prediction_data
      (sampleStore (sampleCfg "RUNNING" 1000 none)
        [sampleRec "model-a" 120 true, sampleRec "model-a" 120 true,
         sampleRec "model-b" 120 true, sampleRec "model-b" 120 false])
      "ab_test_100" (sampleCfg "RUNNING" 1000 none).baseline_model =
      [sampleRec "model-a" 120 true, sampleRec "model-a" 120 true] := by decide
  have hgc : get_prediction_data
      (sampleStore (sampleCfg "RUNNING" 1000 none)
        [sampleRec "model-a" 120 true, sampleRec "model-a" 120 true,
         sampleRec "model-b" 120 true, sampleRec "model-b" 120 false])
      "ab_test_100" (sampleCfg "RUNNING" 1000 none).candidate_model =
      [sampleRec "model-b" 120 true, sampleRec "model-b" 120 false] := by decide
  have key := monitor_applies_rollback_below_min_samples constSciPy
    (sampleStore (sampleCfg "RUNNING" 1000 none)
      [sampleRec "model-a" 120 true, sampleRec "model-a" 120 true,
       sampleRec "model-b" 120 true, sampleRec "model-b" 120 false])
    200 ⟨200, [], [], []⟩ "ab_test_100" (sampleCfg "RUNNING" 1000 none)
    (by simp [get_test_config, getTestEntry, sampleStore]) rfl rfl
    (by norm_num [sampleCfg, hourSeconds])
    (Or.inl (by rw [hgb]; norm_num [sampleCfg]))
  exact key.1.mpr (Or.inl (by
    rw [hgc, hgb]
    norm_num [calculate_model_stats, dictErrorRate, sampleRec]))

end ABTesting